import Mathlib

/-
Verification development for the new-year-countdown repository.

The repository drives a particle display: a ShapeGenerator
(src/utils/shapeGenerator.ts) maps a stage to a point cloud, a morph
animator (ParticleScene's animate loop) moves live particle buffers toward
a target buffer each frame, and an App component advances through the
stage sequence on OPEN → CLOSED hand-gesture edges.

Embedding conventions:
- JavaScript numbers are modelled as exact rationals (ℚ); the probability
  analysis of the ornament recoloring uses ℝ with Lebesgue measure, since
  the claim models Math.random() as a uniform draw on [0,1).
- Math.random() is modelled as a stream `rng : ℕ → ℚ` consumed in call
  order; Math.cos / Math.sin are abstract parameters `qcos qsin : ℚ → ℚ`.
- The browser canvas cannot be executed here: `data : ℕ → ℕ` stands for
  the ImageData byte array produced by drawing the text (index
  `(y * width + x) * 4` is the red channel of pixel (x, y)), and the pixel
  scan loop of generateTextPoints is translated faithfully over it.
  The `getContext` null branch of generateTextPoints (which also returns
  an empty list) is not modelled; browsers always provide a 2d context,
  and the empty-candidate branch below exhibits the same empty result.
-/

open MeasureTheory

namespace NewYear

/-- ParticlePoint from src/types.ts: 3D position plus RGB color (0-1). -/
structure ParticlePoint where
  x : ℚ
  y : ℚ
  z : ℚ
  color : ℚ × ℚ × ℚ
deriving DecidableEq, Repr

/-- PARTICLE_COUNT constant of src/utils/shapeGenerator.ts. -/
def PARTICLE_COUNT : ℕ := 4000

/-- CANVAS_WIDTH constant of src/utils/shapeGenerator.ts. -/
def CANVAS_WIDTH : ℕ := 200

/-- CANVAS_HEIGHT constant of src/utils/shapeGenerator.ts. -/
def CANVAS_HEIGHT : ℕ := 100

/-- createPoint helper of src/utils/shapeGenerator.ts. -/
def createPoint (x y z : ℚ) (color : ℚ × ℚ × ℚ) : ParticlePoint :=
  { x := x, y := y, z := z, color := color }

/-- Default point used to read list elements totally (List.getD). -/
def defaultPoint : ParticlePoint := createPoint 0 0 0 (0, 0, 0)

/-- The base green color `[0.1, 0.8, 0.2]` of generateTreePoints. -/
def greenColor (K : Type) [DivisionRing K] : K × K × K := (1/10, 8/10, 2/10)

/-- The red ornament color `[1, 0.1, 0.1]` of generateTreePoints. -/
def redColor (K : Type) [DivisionRing K] : K × K × K := (1, 1/10, 1/10)

/-- The gold ornament color `[1, 0.8, 0.1]` of generateTreePoints. -/
def goldColor (K : Type) [DivisionRing K] : K × K × K := (1, 8/10, 1/10)

/-- The ornament coloring of generateTreePoints (shapeGenerator.ts lines
26-29): start green, overwrite with red when the first draw exceeds 0.95,
otherwise overwrite with gold when a second draw exceeds 0.95. `r2` is the
value of the second Math.random() call; when the first draw already
exceeds 0.95 the source never performs that call and `r2` is ignored. -/
def ornamentColor (K : Type) [DivisionRing K] [LT K] [DecidableRel (α := K) (· < ·)]
    (r1 r2 : K) : K × K × K :=
  if (95 : K)/100 < r1 then redColor K
  else if (95 : K)/100 < r2 then goldColor K
  else greenColor K

/-- The `height` of particle `i` in generateTreePoints (line 18):
`(i / PARTICLE_COUNT) * 20 - 10`. -/
def treeHeight (i : ℕ) : ℚ := ((i : ℚ) / (PARTICLE_COUNT : ℚ)) * 20 - 10

/-- The `radius` of particle `i` in generateTreePoints (line 19):
`((20 - (height + 10)) / 20) * 8`. -/
def treeRadius (i : ℕ) : ℚ := ((20 - (treeHeight i + 10)) / 20) * 8

/-- The loop body of generateTreePoints, recursing over the remaining
iteration count `n` with loop counter `i` and Math.random() stream
position `k`.  A red particle consumes one draw, any other particle
consumes two (the else-if runs a second Math.random()). -/
def treeAux (qcos qsin : ℚ → ℚ) (rng : ℕ → ℚ) : ℕ → ℕ → ℕ → List ParticlePoint
  | 0, _, _ => []
  | n + 1, i, k =>
    let angle : ℚ := (i : ℚ) * (1/10)
    let radius : ℚ := treeRadius i
    let x := qcos angle * radius
    let z := qsin angle * radius
    let y := treeHeight i
    let color := ornamentColor ℚ (rng k) (rng (k + 1))
    let kNext := if (95 : ℚ)/100 < rng k then k + 1 else k + 2
    createPoint x y z color :: treeAux qcos qsin rng n (i + 1) kNext

/-- generateTreePoints of src/utils/shapeGenerator.ts. -/
def generateTreePoints (qcos qsin : ℚ → ℚ) (rng : ℕ → ℚ) : List ParticlePoint :=
  treeAux qcos qsin rng PARTICLE_COUNT 0 0

/-- The pixel-scan loop of generateTextPoints (lines 63-72): visit rows
`y = 0, 2, 4, ...` and columns `x = 0, 2, 4, ...` in raster order and keep
`(x, y)` when the red channel `data[(y * CANVAS_WIDTH + x) * 4]` exceeds
128. -/
def validPixels (data : ℕ → ℕ) : List (ℕ × ℕ) :=
  ((List.range (CANVAS_HEIGHT / 2)).map (fun j => 2 * j)).flatMap fun y =>
    ((List.range (CANVAS_WIDTH / 2)).map (fun j => 2 * j)).filterMap fun x =>
      if 128 < data ((y * CANVAS_WIDTH + x) * 4) then some (x, y) else none

/-- The x coordinate assigned to a sampled pixel (line 84):
`(pixel.x - CANVAS_WIDTH / 2) * 0.2`. -/
def textX (px : ℕ) : ℚ := ((px : ℚ) - (CANVAS_WIDTH : ℚ)/2) * (2/10)

/-- The y coordinate assigned to a sampled pixel (line 85):
`-(pixel.y - CANVAS_HEIGHT / 2) * 0.2` (canvas rows flipped). -/
def textY (py : ℕ) : ℚ := -(((py : ℚ) - (CANVAS_HEIGHT : ℚ)/2)) * (2/10)

/-- generateTextPoints of src/utils/shapeGenerator.ts, over the canvas
byte array `data` (see header).  If the scan yields no candidate pixels
the empty list is returned (line 77); otherwise PARTICLE_COUNT particles
are produced, particle `i` reusing candidate `i % validPixels.length` and
drawing one Math.random() for its depth jitter `z`. -/
def generateTextPoints (data : ℕ → ℕ) (rng : ℕ → ℚ) (colorBase : ℚ × ℚ × ℚ) :
    List ParticlePoint :=
  let vp := validPixels data
  if vp = [] then []
  else
    (List.range PARTICLE_COUNT).map fun i =>
      let pixel := vp.getD (i % vp.length) (0, 0)
      createPoint (textX pixel.1) (textY pixel.2) ((rng i - 1/2) * 2) colorBase

/-- getPointsForStage of src/utils/shapeGenerator.ts: dispatch on the
stage string; countdown digits render blue-ish text, HAPPY_NEW_YEAR
renders gold text, anything unrecognized falls back to the tree. -/
def getPointsForStage (qcos qsin : ℚ → ℚ) (rng : ℕ → ℚ) (data : ℕ → ℕ)
    (stage : String) : List ParticlePoint :=
  if stage = "TREE" then generateTreePoints qcos qsin rng
  else if stage = "5" ∨ stage = "4" ∨ stage = "3" ∨ stage = "2" ∨ stage = "1" then
    generateTextPoints data rng (4/10, 6/10, 1)
  else if stage = "HAPPY_NEW_YEAR" then
    generateTextPoints data rng (1, 8/10, 2/10)
  else generateTreePoints qcos qsin rng

/-! ### Stage state machine (App component, src/unnamed/part_000) -/

/-- AppStage from src/types.ts. -/
inductive AppStage where
  | TREE
  | COUNTDOWN_5
  | COUNTDOWN_4
  | COUNTDOWN_3
  | COUNTDOWN_2
  | COUNTDOWN_1
  | HAPPY_NEW_YEAR
deriving DecidableEq, Repr

/-- HandState from src/types.ts. -/
inductive HandState where
  | UNKNOWN
  | OPEN
  | CLOSED
deriving DecidableEq, Repr

/-- STAGE_ORDER from the App component (part_000 lines 6-14). -/
def STAGE_ORDER : List AppStage :=
  [AppStage.TREE, AppStage.COUNTDOWN_5, AppStage.COUNTDOWN_4, AppStage.COUNTDOWN_3,
   AppStage.COUNTDOWN_2, AppStage.COUNTDOWN_1, AppStage.HAPPY_NEW_YEAR]

/-- The App component's gesture-relevant state: currentStageIndex,
handState and prevHandState (part_000 lines 17-19). -/
structure GestureState where
  currentStageIndex : ℕ
  handState : HandState
  prevHandState : HandState
deriving DecidableEq, Repr

/-- The initial App state: index 0, both gesture memories UNKNOWN. -/
def initialGestureState : GestureState :=
  { currentStageIndex := 0, handState := HandState.UNKNOWN,
    prevHandState := HandState.UNKNOWN }

/-- handleNextStage (part_000 lines 126-128):
`prev ↦ min(prev + 1, STAGE_ORDER.length - 1)`. -/
def handleNextStage (i : ℕ) : ℕ := min (i + 1) (STAGE_ORDER.length - 1)

/-- handleReset (part_000 lines 130-134). -/
def handleReset (_s : GestureState) : GestureState := initialGestureState

/-- One gesture notification: the setHandState callback stores the new
state, then the gesture-edge useEffect (part_000 lines 116-124) advances
the stage exactly when the previous state was OPEN and the new one is
CLOSED, and unconditionally records the new state as prevHandState. -/
def gestureStep (s : GestureState) (g : HandState) : GestureState :=
  let idx :=
    if s.prevHandState = HandState.OPEN ∧ g = HandState.CLOSED then
      handleNextStage s.currentStageIndex
    else s.currentStageIndex
  { currentStageIndex := idx, handState := g, prevHandState := g }

/-- Process a whole sequence of gesture notifications in order. -/
def runGestures (s : GestureState) (l : List HandState) : GestureState :=
  l.foldl gestureStep s

/-! ### Morph animator (ParticleScene animate loop, src/unnamed/part_001) -/

/-- The six live (or target) scalar channels of one particle: position
x/y/z at flat indices i3, i3+1, i3+2 and color r/g/b likewise. -/
structure ParticleChannels where
  px : ℚ
  py : ℚ
  pz : ℚ
  cr : ℚ
  cg : ℚ
  cb : ℚ
deriving DecidableEq, Repr

/-- lerpFactor of the animate loop (part_001 line 129). -/
def lerpFactor : ℚ := 8/100

/-- One iteration of the animate loop body (part_001 lines 131-153) for
one particle: the floating offsets (sin/cos abstracted as `qsin`/`qcos`)
are added to the target x and y, and every position and color channel
moves toward its (effective) target by lerpFactor.  Color channels use
the raw target: no floating offset touches them, nor the z channel. -/
def animateParticle (qsin qcos : ℚ → ℚ) (time rand : ℚ)
    (target live : ParticleChannels) : ParticleChannels :=
  let floatOffset := qsin (time + rand * 10) * (2/10)
  let floatOffsetX := qcos (time * (5/10) + rand * 10) * (1/10)
  let targetX := target.px + floatOffsetX
  let targetY := target.py + floatOffset
  let targetZ := target.pz
  { px := live.px + (targetX - live.px) * lerpFactor
    py := live.py + (targetY - live.py) * lerpFactor
    pz := live.pz + (targetZ - live.pz) * lerpFactor
    cr := live.cr + (target.cr - live.cr) * lerpFactor
    cg := live.cg + (target.cg - live.cg) * lerpFactor
    cb := live.cb + (target.cb - live.cb) * lerpFactor }

/-- `n` frames of the animate loop on one particle; frame `k` runs at
wall-clock time `times k` with the particle's fixed random phase `rand`. -/
def animateIterate (qsin qcos : ℚ → ℚ) (times : ℕ → ℚ) (rand : ℚ)
    (target live : ParticleChannels) : ℕ → ParticleChannels
  | 0 => live
  | n + 1 =>
    animateParticle qsin qcos (times n) rand target
      (animateIterate qsin qcos times rand target live n)

/-- Distance from the live channels to the target channels: the sum of
the six per-channel absolute differences. -/
def liveDist (live target : ParticleChannels) : ℚ :=
  |live.px - target.px| + |live.py - target.py| + |live.pz - target.pz| +
    |live.cr - target.cr| + |live.cg - target.cg| + |live.cb - target.cb|

/-! ### Target-buffer construction (ParticleScene stage useEffect) -/

/-- The target positions built by the stage useEffect (part_001 lines
188-211): the forEach copies point `i` for `i < points.length` (guarded
by `i < particleCount`), and the pad loop zeroes indices from
`points.length` up to particleCount.  Entry `i` of the resulting length
PARTICLE_COUNT buffer is therefore point `i` when it exists, else the
origin. -/
def buildTargetPositions (points : List ParticlePoint) : List (ℚ × ℚ × ℚ) :=
  (List.range PARTICLE_COUNT).map fun i =>
    match points[i]? with
    | some p => (p.x, p.y, p.z)
    | none => (0, 0, 0)

/-- The target colors built by the same useEffect: point `i`'s color when
it exists, else fully dark (0,0,0). -/
def buildTargetColors (points : List ParticlePoint) : List (ℚ × ℚ × ℚ) :=
  (List.range PARTICLE_COUNT).map fun i =>
    match points[i]? with
    | some p => p.color
    | none => (0, 0, 0)

/-- A target buffer pair as held by targetPositionsRef/targetColorsRef. -/
structure TargetBuffers where
  positions : List (ℚ × ℚ × ℚ)
  colors : List (ℚ × ℚ × ℚ)
deriving DecidableEq

/-- A heap of allocated Float32Array buffers: `next` is the first unused
address, `mem` the contents at each address. -/
structure SceneHeap where
  next : ℕ
  mem : ℕ → TargetBuffers

/-- The ref cell targetPositionsRef/targetColorsRef, holding the address
of the currently installed target buffer. -/
structure SceneRefs where
  targetAddr : ℕ

/-- The stage useEffect (part_001 lines 184-216) as a heap action: it
allocates fresh arrays (`new Float32Array`) at an unused address, fills
only them (forEach + pad loop write exclusively into the new arrays), and
finally swaps the ref to the new address.  No previously allocated
address is written. -/
def installTargets (points : List ParticlePoint) (h : SceneHeap) :
    SceneHeap × SceneRefs :=
  ({ next := h.next + 1
     mem := fun a =>
       if a = h.next then
         { positions := buildTargetPositions points,
           colors := buildTargetColors points }
       else h.mem a },
   { targetAddr := h.next })

/-! ### Probability model of the ornament recoloring

The claim models Math.random() as i.i.d. uniform draws on [0,1).  One
particle's coloring consumes (up to) two draws, so the sample space is
the unit square with 2-dimensional Lebesgue measure, and the color of the
particle is `ornamentColor ℝ` applied to the pair of draws. -/

/-- The unit square `[0,1) × [0,1)` of one particle's two uniform draws. -/
def accentUnitSquare : Set (ℝ × ℝ) := Set.Ico (0:ℝ) 1 ×ˢ Set.Ico (0:ℝ) 1

/-- The event that a particle whose two draws are `p` gets color `c`. -/
def ornamentEvent (c : ℝ × ℝ × ℝ) : Set (ℝ × ℝ) :=
  {p | p ∈ accentUnitSquare ∧ ornamentColor ℝ p.1 p.2 = c}

/-! ### Helper lemmas -/

lemma treeAux_length (qcos qsin : ℚ → ℚ) (rng : ℕ → ℚ) :
    ∀ n i k, (treeAux qcos qsin rng n i k).length = n := by
  intro n
  induction n with
  | zero => intro i k; rfl
  | succ n ih => intro i k; simp [treeAux, ih]

lemma generateTreePoints_length (qcos qsin : ℚ → ℚ) (rng : ℕ → ℚ) :
    (generateTreePoints qcos qsin rng).length = PARTICLE_COUNT :=
  treeAux_length qcos qsin rng PARTICLE_COUNT 0 0

lemma generateTextPoints_length (data : ℕ → ℕ) (rng : ℕ → ℚ) (cb : ℚ × ℚ × ℚ)
    (h : validPixels data ≠ []) :
    (generateTextPoints data rng cb).length = PARTICLE_COUNT := by
  simp [generateTextPoints, h]

lemma range_map_getD {α : Type} (f : ℕ → α) (n i : ℕ) (d : α) (h : i < n) :
    ((List.range n).map f).getD i d = f i := by
  rw [List.getD_eq_getElem?_getD]
  simp [List.getElem?_range, h]

/-! ### C6 -/

/-- C6: starting from stage index 0, each handleNextStage call maps index
n to min(n + 1, last index) where the last index of the 7-stage
STAGE_ORDER is 6; repeated calls reach and then stay at 6 with no
wraparound (a call at the last stage is a no-op), and 10 calls from 0 end
at index 6. -/
theorem stage_advance_clamped :
    (∀ i, handleNextStage i = min (i + 1) 6) ∧
    (∀ n, handleNextStage^[n] 0 = min n 6) ∧
    handleNextStage 6 = 6 ∧
    handleNextStage^[10] 0 = 6 := by
  have h1 : ∀ i, handleNextStage i = min (i + 1) 6 := fun i => rfl
  have h2 : ∀ n, handleNextStage^[n] 0 = min n 6 := by
    intro n
    induction n with
    | zero => simp
    | succ n ih =>
      rw [Function.iterate_succ_apply', ih, h1]
      omega
  exact ⟨h1, h2, by decide, by rw [h2]; decide⟩

/-! ### C2 -/

/-- C2: a gesture notification advances the stage index (by one, clamped
at the last index) exactly when the previously observed state is OPEN and
the new state is CLOSED; every other transition leaves the index
unchanged, prevHandState is updated to the new state after every
notification, and below the last index the advance-by-one happens iff the
OPEN→CLOSED edge fired.  [OPEN, OPEN, CLOSED] from the initial state
yields exactly one advance and [CLOSED, OPEN] yields zero. -/
theorem gesture_edge_behavior (s : GestureState) (g : HandState) :
    (gestureStep s g).prevHandState = g ∧
    (gestureStep s g).handState = g ∧
    (s.prevHandState = HandState.OPEN ∧ g = HandState.CLOSED →
      (gestureStep s g).currentStageIndex =
        min (s.currentStageIndex + 1) (STAGE_ORDER.length - 1)) ∧
    (¬(s.prevHandState = HandState.OPEN ∧ g = HandState.CLOSED) →
      (gestureStep s g).currentStageIndex = s.currentStageIndex) ∧
    (s.currentStageIndex < STAGE_ORDER.length - 1 →
      ((gestureStep s g).currentStageIndex = s.currentStageIndex + 1 ↔
        s.prevHandState = HandState.OPEN ∧ g = HandState.CLOSED)) ∧
    (runGestures initialGestureState
      [HandState.OPEN, HandState.OPEN, HandState.CLOSED]).currentStageIndex = 1 ∧
    (runGestures initialGestureState
      [HandState.CLOSED, HandState.OPEN]).currentStageIndex = 0 := by
  refine ⟨rfl, rfl, ?_, ?_, ?_, by decide, by decide⟩
  · intro h
    simp only [gestureStep]
    rw [if_pos h]
    rfl
  · intro h
    simp only [gestureStep]
    rw [if_neg h]
  · intro hlt
    simp only [STAGE_ORDER, List.length] at hlt
    by_cases hcond : s.prevHandState = HandState.OPEN ∧ g = HandState.CLOSED
    · simp only [gestureStep]
      rw [if_pos hcond]
      simp only [handleNextStage, STAGE_ORDER, List.length, hcond, and_self, iff_true]
      omega
    · simp only [gestureStep]
      rw [if_neg hcond]
      simp only [hcond, iff_false]
      omega

/-- Witness for C2: from state (index 0, prev OPEN) a CLOSED notification
records CLOSED and advances to index 1; from (index 5, prev UNKNOWN) an
OPEN notification leaves the index at 5. -/
theorem gesture_edge_behavior_witness :
    (gestureStep ⟨0, HandState.OPEN, HandState.OPEN⟩ HandState.CLOSED).prevHandState =
      HandState.CLOSED ∧
    (gestureStep ⟨0, HandState.OPEN, HandState.OPEN⟩ HandState.CLOSED).currentStageIndex =
      min (0 + 1) (STAGE_ORDER.length - 1) ∧
    ((gestureStep ⟨0, HandState.OPEN, HandState.OPEN⟩ HandState.CLOSED).currentStageIndex = 0 + 1 ↔
      (⟨0, HandState.OPEN, HandState.OPEN⟩ : GestureState).prevHandState = HandState.OPEN ∧
        HandState.CLOSED = HandState.CLOSED) ∧
    (gestureStep ⟨5, HandState.UNKNOWN, HandState.UNKNOWN⟩ HandState.OPEN).currentStageIndex = 5 :=
  ⟨(gesture_edge_behavior ⟨0, HandState.OPEN, HandState.OPEN⟩ HandState.CLOSED).1,
   (gesture_edge_behavior ⟨0, HandState.OPEN, HandState.OPEN⟩ HandState.CLOSED).2.2.1
     (by decide),
   (gesture_edge_behavior ⟨0, HandState.OPEN, HandState.OPEN⟩ HandState.CLOSED).2.2.2.2.1
     (by decide),
   (gesture_edge_behavior ⟨5, HandState.UNKNOWN, HandState.UNKNOWN⟩ HandState.OPEN).2.2.2.1
     (by decide)⟩

/-! ### C1 -/

/-- C1 (amended): the cloud produced by getPointsForStage has exactly
PARTICLE_COUNT = 4000 entries for every stage value whenever the canvas
scan yields at least one candidate pixel — whether the candidates number
fewer than 4000 (cyclic reuse pads) or more (only 4000 loop iterations
run).  (As stated the claim fails when zero pixels are sampled: the text
generator then returns the empty cloud, see the counterexample.) -/
theorem getPointsForStage_capacity (qcos qsin : ℚ → ℚ) (rng : ℕ → ℚ)
    (data : ℕ → ℕ) (stage : String) (h : validPixels data ≠ []) :
    (getPointsForStage qcos qsin rng data stage).length = PARTICLE_COUNT := by
  unfold getPointsForStage
  split
  · exact generateTreePoints_length qcos qsin rng
  · split
    · exact generateTextPoints_length data rng _ h
    · split
      · exact generateTextPoints_length data rng _ h
      · exact generateTreePoints_length qcos qsin rng

/-- Witness for C1: an all-white canvas has a nonempty candidate list,
and the countdown stage "5" then yields exactly 4000 points. -/
theorem getPointsForStage_capacity_witness :
    validPixels (fun _ => 255) ≠ [] ∧
    (getPointsForStage (fun _ => 0) (fun _ => 0) (fun _ => 0) (fun _ => 255) "5").length =
      PARTICLE_COUNT :=
  ⟨by decide,
   getPointsForStage_capacity (fun _ => 0) (fun _ => 0) (fun _ => 0) (fun _ => 255) "5"
     (by decide)⟩

/-- Counterexample for C1: on an all-black canvas (zero sampled
foreground pixels) stage "5" produces a cloud of length 0, not 4000. -/
theorem getPointsForStage_capacity_cex :
    (getPointsForStage (fun _ => 0) (fun _ => 0) (fun _ => 0) (fun _ => 0) "5").length ≠
      PARTICLE_COUNT := by decide

/-! ### C7 -/

lemma treeHeight_closed (m : ℕ) : treeHeight m = (m : ℚ) * (1/200) - 10 := by
  unfold treeHeight PARTICLE_COUNT
  push_cast
  ring

lemma treeRadius_closed (m : ℕ) : treeRadius m = (10 - treeHeight m) * (2/5) := by
  unfold treeRadius
  ring

lemma treeAux_getD_y (qcos qsin : ℚ → ℚ) (rng : ℕ → ℚ) :
    ∀ n i k j, j < n →
      ((treeAux qcos qsin rng n i k).getD j defaultPoint).y = treeHeight (i + j) := by
  intro n
  induction n with
  | zero => intro i k j hj; exact absurd hj (Nat.not_lt_zero j)
  | succ n ih =>
    intro i k j hj
    cases j with
    | zero => simp [treeAux, createPoint]
    | succ j =>
      have step : (treeAux qcos qsin rng (n + 1) i k).getD (j + 1) defaultPoint =
          (treeAux qcos qsin rng n (i + 1)
            (if (95 : ℚ)/100 < rng k then k + 1 else k + 2)).getD j defaultPoint := by
        simp [treeAux, List.getD_cons_succ]
      rw [step, ih (i + 1) _ j (by omega)]
      congr 1
      omega

/-- C7: for all indices i ≤ j below capacity, the y (height) channel of
tree particle i equals treeHeight i, heights lie within [-10, 10] and are
non-decreasing in the index, and the radius (treeRadius, computed from
the height exactly as in the source) is non-increasing as the height
grows: the cone is widest at the base and narrows toward the apex. -/
theorem tree_geometry (qcos qsin : ℚ → ℚ) (rng : ℕ → ℚ) (i j : ℕ)
    (hi : i < PARTICLE_COUNT) (hj : j < PARTICLE_COUNT) (hij : i ≤ j) :
    ((generateTreePoints qcos qsin rng).getD i defaultPoint).y = treeHeight i ∧
    ((generateTreePoints qcos qsin rng).getD j defaultPoint).y = treeHeight j ∧
    (-10 : ℚ) ≤ treeHeight i ∧ treeHeight i ≤ 10 ∧
    treeHeight i ≤ treeHeight j ∧
    treeRadius j ≤ treeRadius i := by
  have hgi := treeAux_getD_y qcos qsin rng PARTICLE_COUNT 0 0 i hi
  have hgj := treeAux_getD_y qcos qsin rng PARTICLE_COUNT 0 0 j hj
  rw [Nat.zero_add] at hgi hgj
  have hci : (i : ℚ) ≤ (j : ℚ) := by exact_mod_cast hij
  have hi0 : (0 : ℚ) ≤ (i : ℚ) := by positivity
  have hiq : (i : ℚ) < 4000 := by exact_mod_cast hi
  have hmono : treeHeight i ≤ treeHeight j := by
    rw [treeHeight_closed, treeHeight_closed]
    linarith
  refine ⟨hgi, hgj, ?_, ?_, hmono, ?_⟩
  · rw [treeHeight_closed]; linarith
  · rw [treeHeight_closed]; linarith
  · rw [treeRadius_closed, treeRadius_closed]; linarith

/-- Witness for C7: indices 0 and 1 of a concrete tree cloud. -/
theorem tree_geometry_witness :
    ((generateTreePoints (fun _ => 0) (fun _ => 0) (fun _ => 0)).getD 0 defaultPoint).y =
      treeHeight 0 ∧
    ((generateTreePoints (fun _ => 0) (fun _ => 0) (fun _ => 0)).getD 1 defaultPoint).y =
      treeHeight 1 ∧
    (-10 : ℚ) ≤ treeHeight 0 ∧ treeHeight 0 ≤ 10 ∧
    treeHeight 0 ≤ treeHeight 1 ∧
    treeRadius 1 ≤ treeRadius 0 :=
  tree_geometry (fun _ => 0) (fun _ => 0) (fun _ => 0) 0 1 (by decide) (by decide)
    (by decide)

/-! ### C8 -/

lemma generateTextPoints_getD (data : ℕ → ℕ) (rng : ℕ → ℚ) (cb : ℚ × ℚ × ℚ)
    (h : validPixels data ≠ []) (m : ℕ) (hm : m < PARTICLE_COUNT) :
    (generateTextPoints data rng cb).getD m defaultPoint =
      createPoint
        (textX ((validPixels data).getD (m % (validPixels data).length) (0, 0)).1)
        (textY ((validPixels data).getD (m % (validPixels data).length) (0, 0)).2)
        ((rng m - 1/2) * 2) cb := by
  unfold generateTextPoints
  rw [if_neg h]
  exact range_map_getD _ _ _ _ hm

/-- C8: with a nonempty candidate list, output particle i of the text
shape is built from candidate `i mod len` of the raster-order candidate
list (position from textX/textY, one random depth draw, the fixed base
color); and once i reaches the candidate count, particle i coincides in x
and y with the strictly earlier particle `i mod len`. -/
theorem text_cyclic_mapping (data : ℕ → ℕ) (rng : ℕ → ℚ) (cb : ℚ × ℚ × ℚ)
    (h : validPixels data ≠ []) (i : ℕ) (hi : i < PARTICLE_COUNT) :
    (generateTextPoints data rng cb).getD i defaultPoint =
      createPoint
        (textX ((validPixels data).getD (i % (validPixels data).length) (0, 0)).1)
        (textY ((validPixels data).getD (i % (validPixels data).length) (0, 0)).2)
        ((rng i - 1/2) * 2) cb ∧
    ((validPixels data).length ≤ i →
      i % (validPixels data).length < i ∧
      ((generateTextPoints data rng cb).getD (i % (validPixels data).length)
          defaultPoint).x =
        ((generateTextPoints data rng cb).getD i defaultPoint).x ∧
      ((generateTextPoints data rng cb).getD (i % (validPixels data).length)
          defaultPoint).y =
        ((generateTextPoints data rng cb).getD i defaultPoint).y) := by
  have hlen : 0 < (validPixels data).length := List.length_pos.mpr h
  refine ⟨generateTextPoints_getD data rng cb h i hi, fun hle => ?_⟩
  have hmod : i % (validPixels data).length < (validPixels data).length :=
    Nat.mod_lt i hlen
  have hlt : i % (validPixels data).length < i := lt_of_lt_of_le hmod hle
  have hmod4000 : i % (validPixels data).length < PARTICLE_COUNT := lt_trans hlt hi
  have hidem : i % (validPixels data).length % (validPixels data).length =
      i % (validPixels data).length := Nat.mod_eq_of_lt hmod
  refine ⟨hlt, ?_, ?_⟩ <;>
    rw [generateTextPoints_getD data rng cb h i hi,
      generateTextPoints_getD data rng cb h _ hmod4000, hidem] <;>
    rfl

/-- A canvas byte array whose only bright byte is pixel (0,0)'s red
channel: the scan samples exactly one candidate pixel. -/
def dataOnePixel : ℕ → ℕ := fun idx => if idx = 0 then 255 else 0

/-- Witness for C8: with a single candidate pixel, particle 2 is built
from candidate 2 mod 1 = 0 and coincides in x and y with particle 0. -/
theorem text_cyclic_mapping_witness :
    (generateTextPoints dataOnePixel (fun _ => 0) (1, 1, 1)).getD 2 defaultPoint =
      createPoint
        (textX ((validPixels dataOnePixel).getD
          (2 % (validPixels dataOnePixel).length) (0, 0)).1)
        (textY ((validPixels dataOnePixel).getD
          (2 % (validPixels dataOnePixel).length) (0, 0)).2)
        (((fun _ : ℕ => (0:ℚ)) 2 - 1/2) * 2) (1, 1, 1) ∧
    2 % (validPixels dataOnePixel).length < 2 ∧
    ((generateTextPoints dataOnePixel (fun _ => 0) (1, 1, 1)).getD
        (2 % (validPixels dataOnePixel).length) defaultPoint).x =
      ((generateTextPoints dataOnePixel (fun _ => 0) (1, 1, 1)).getD 2 defaultPoint).x ∧
    ((generateTextPoints dataOnePixel (fun _ => 0) (1, 1, 1)).getD
        (2 % (validPixels dataOnePixel).length) defaultPoint).y =
      ((generateTextPoints dataOnePixel (fun _ => 0) (1, 1, 1)).getD 2 defaultPoint).y :=
  ⟨(text_cyclic_mapping dataOnePixel (fun _ => 0) (1, 1, 1) (by decide) 2 (by decide)).1,
   (text_cyclic_mapping dataOnePixel (fun _ => 0) (1, 1, 1) (by decide) 2
     (by decide)).2 (by decide)⟩

/-! ### C5 -/

lemma buildTargetPositions_nil :
    buildTargetPositions [] = List.replicate PARTICLE_COUNT (0, 0, 0) := by
  unfold buildTargetPositions
  rw [List.eq_replicate_iff]
  refine ⟨by simp, ?_⟩
  intro b hb
  simp only [List.mem_map, List.mem_range] at hb
  obtain ⟨m, _, hm⟩ := hb
  simpa using hm.symm

lemma buildTargetColors_nil :
    buildTargetColors [] = List.replicate PARTICLE_COUNT (0, 0, 0) := by
  unfold buildTargetColors
  rw [List.eq_replicate_iff]
  refine ⟨by simp, ?_⟩
  intro b hb
  simp only [List.mem_map, List.mem_range] at hb
  obtain ⟨m, _, hm⟩ := hb
  simpa using hm.symm

/-- C5: when the canvas scan samples zero foreground pixels the text
generator returns the empty cloud (no error path), and the stage
useEffect's capacity normalization then yields target buffers whose every
one of the 4000 entries has position at the origin and color zero in all
three channels. -/
theorem text_empty_padded (data : ℕ → ℕ) (rng : ℕ → ℚ) (cb : ℚ × ℚ × ℚ)
    (h : validPixels data = []) :
    generateTextPoints data rng cb = [] ∧
    buildTargetPositions (generateTextPoints data rng cb) =
      List.replicate PARTICLE_COUNT (0, 0, 0) ∧
    buildTargetColors (generateTextPoints data rng cb) =
      List.replicate PARTICLE_COUNT (0, 0, 0) := by
  have he : generateTextPoints data rng cb = [] := by
    simp [generateTextPoints, h]
  refine ⟨he, ?_, ?_⟩
  · rw [he]; exact buildTargetPositions_nil
  · rw [he]; exact buildTargetColors_nil

/-- Witness for C5: the all-black canvas samples no pixels; the generator
returns the empty cloud and the normalized buffers are all-zero. -/
theorem text_empty_padded_witness :
    generateTextPoints (fun _ => 0) (fun _ => 0) (1, 1, 1) = [] ∧
    buildTargetPositions (generateTextPoints (fun _ => 0) (fun _ => 0) (1, 1, 1)) =
      List.replicate PARTICLE_COUNT (0, 0, 0) ∧
    buildTargetColors (generateTextPoints (fun _ => 0) (fun _ => 0) (1, 1, 1)) =
      List.replicate PARTICLE_COUNT (0, 0, 0) :=
  text_empty_padded (fun _ => 0) (fun _ => 0) (1, 1, 1) (by decide)

/-! ### C9 -/

/-- C9: the stage useEffect installs the new target buffer by building
entirely fresh arrays at a previously unused address and swapping the ref
to that address in one step: every previously allocated address — in
particular the one a reader of the old target buffer still holds — keeps
its exact old contents, and the address the ref now designates holds the
complete buffer pair built from this single stage's point list. -/
theorem target_swap_preserves_old (points : List ParticlePoint) (h : SceneHeap)
    (r : SceneRefs) (hr : r.targetAddr < h.next) :
    (installTargets points h).1.mem r.targetAddr = h.mem r.targetAddr ∧
    (installTargets points h).2.targetAddr = h.next ∧
    (installTargets points h).1.mem (installTargets points h).2.targetAddr =
      { positions := buildTargetPositions points,
        colors := buildTargetColors points } := by
  refine ⟨?_, rfl, ?_⟩
  · simp [installTargets, Nat.ne_of_lt hr]
  · simp [installTargets]

/-- Witness for C9: a heap with one allocated buffer at address 0; after
installing targets for the empty point list, address 0 is untouched and
the ref designates the freshly built buffer at address 1. -/
theorem target_swap_preserves_old_witness :
    (installTargets [] ⟨1, fun _ => ⟨[], []⟩⟩).1.mem 0 =
      (⟨1, fun _ => ⟨[], []⟩⟩ : SceneHeap).mem 0 ∧
    (installTargets [] ⟨1, fun _ => ⟨[], []⟩⟩).2.targetAddr = 1 ∧
    (installTargets [] ⟨1, fun _ => ⟨[], []⟩⟩).1.mem
        (installTargets [] ⟨1, fun _ => ⟨[], []⟩⟩).2.targetAddr =
      { positions := buildTargetPositions [], colors := buildTargetColors [] } :=
  target_swap_preserves_old [] ⟨1, fun _ => ⟨[], []⟩⟩ ⟨0⟩ (by decide)

/-! ### C10 -/

lemma lerp_mem_unit (a b : ℚ) (ha0 : 0 ≤ a) (ha1 : a ≤ 1) (hb0 : 0 ≤ b) (hb1 : b ≤ 1) :
    0 ≤ a + (b - a) * lerpFactor ∧ a + (b - a) * lerpFactor ≤ 1 := by
  unfold lerpFactor
  constructor <;> nlinarith

/-- C10: the per-frame color update is a convex combination
new = old + (target - old) * 0.08, and no floating offset is added to any
color channel (the theorem holds for every host sin/cos function and
time), so if all live and target color channels lie in [0, 1] before a
frame they still do afterwards. -/
theorem color_channels_stay_unit (qsin qcos : ℚ → ℚ) (time rand : ℚ)
    (target live : ParticleChannels)
    (hr0 : 0 ≤ live.cr) (hr1 : live.cr ≤ 1)
    (hg0 : 0 ≤ live.cg) (hg1 : live.cg ≤ 1)
    (hb0 : 0 ≤ live.cb) (hb1 : live.cb ≤ 1)
    (tr0 : 0 ≤ target.cr) (tr1 : target.cr ≤ 1)
    (tg0 : 0 ≤ target.cg) (tg1 : target.cg ≤ 1)
    (tb0 : 0 ≤ target.cb) (tb1 : target.cb ≤ 1) :
    (0 ≤ (animateParticle qsin qcos time rand target live).cr ∧
      (animateParticle qsin qcos time rand target live).cr ≤ 1) ∧
    (0 ≤ (animateParticle qsin qcos time rand target live).cg ∧
      (animateParticle qsin qcos time rand target live).cg ≤ 1) ∧
    (0 ≤ (animateParticle qsin qcos time rand target live).cb ∧
      (animateParticle qsin qcos time rand target live).cb ≤ 1) := by
  refine ⟨?_, ?_, ?_⟩
  · exact lerp_mem_unit live.cr target.cr hr0 hr1 tr0 tr1
  · exact lerp_mem_unit live.cg target.cg hg0 hg1 tg0 tg1
  · exact lerp_mem_unit live.cb target.cb hb0 hb1 tb0 tb1

/-- Witness for C10: one frame from live colors (1, 0, 1/2) toward target
colors (0, 1, 1/2) keeps every color channel inside [0, 1]. -/
theorem color_channels_stay_unit_witness :
    (0 ≤ (animateParticle (fun _ => 0) (fun _ => 0) 0 0
        ⟨0, 0, 0, 0, 1, 1/2⟩ ⟨0, 0, 0, 1, 0, 1/2⟩).cr ∧
      (animateParticle (fun _ => 0) (fun _ => 0) 0 0
        ⟨0, 0, 0, 0, 1, 1/2⟩ ⟨0, 0, 0, 1, 0, 1/2⟩).cr ≤ 1) ∧
    (0 ≤ (animateParticle (fun _ => 0) (fun _ => 0) 0 0
        ⟨0, 0, 0, 0, 1, 1/2⟩ ⟨0, 0, 0, 1, 0, 1/2⟩).cg ∧
      (animateParticle (fun _ => 0) (fun _ => 0) 0 0
        ⟨0, 0, 0, 0, 1, 1/2⟩ ⟨0, 0, 0, 1, 0, 1/2⟩).cg ≤ 1) ∧
    (0 ≤ (animateParticle (fun _ => 0) (fun _ => 0) 0 0
        ⟨0, 0, 0, 0, 1, 1/2⟩ ⟨0, 0, 0, 1, 0, 1/2⟩).cb ∧
      (animateParticle (fun _ => 0) (fun _ => 0) 0 0
        ⟨0, 0, 0, 0, 1, 1/2⟩ ⟨0, 0, 0, 1, 0, 1/2⟩).cb ≤ 1) :=
  color_channels_stay_unit (fun _ => 0) (fun _ => 0) 0 0
    ⟨0, 0, 0, 0, 1, 1/2⟩ ⟨0, 0, 0, 1, 0, 1/2⟩
    (by norm_num) (by norm_num) (by norm_num) (by norm_num) (by norm_num) (by norm_num)
    (by norm_num) (by norm_num) (by norm_num) (by norm_num) (by norm_num) (by norm_num)

/-! ### C3 -/

lemma lerp_abs_toward (a b : ℚ) :
    |a + (b - a) * lerpFactor - b| = (92/100) * |a - b| := by
  have e : a + (b - a) * lerpFactor - b = (92/100) * (a - b) := by
    unfold lerpFactor; ring
  rw [e, abs_mul, abs_of_pos (show (0:ℚ) < 92/100 by norm_num)]

lemma liveDist_nonneg (live target : ParticleChannels) : 0 ≤ liveDist live target := by
  unfold liveDist
  positivity

lemma animateParticle_dist_ratio (qsin qcos : ℚ → ℚ)
    (hs : ∀ x, qsin x = 0) (hc : ∀ x, qcos x = 0) (time rand : ℚ)
    (target live : ParticleChannels) :
    liveDist (animateParticle qsin qcos time rand target live) target =
      (92/100) * liveDist live target := by
  simp only [animateParticle, liveDist, hs, hc, zero_mul, add_zero]
  simp only [lerp_abs_toward]
  ring

lemma animateIterate_dist (qsin qcos : ℚ → ℚ) (times : ℕ → ℚ) (rand : ℚ)
    (hs : ∀ x, qsin x = 0) (hc : ∀ x, qcos x = 0)
    (target live : ParticleChannels) (n : ℕ) :
    liveDist (animateIterate qsin qcos times rand target live n) target =
      (92/100) ^ n * liveDist live target := by
  induction n with
  | zero => simp [animateIterate]
  | succ n ih =>
    have step : animateIterate qsin qcos times rand target live (n + 1) =
        animateParticle qsin qcos (times n) rand target
          (animateIterate qsin qcos times rand target live n) := rfl
    rw [step, animateParticle_dist_ratio qsin qcos hs hc, ih, pow_succ]
    ring

/-- C3 (amended): under a constant target and zero floating amplitude
(sin and cos identically zero), each frame scales the distance to the
target by exactly 1 - 0.08 = 0.92, so the distance strictly decreases on
every frame on which it is nonzero, and for every positive threshold ε
there is a frame count N past which the distance stays below ε.  (As
stated the claim fails when the live value already equals the target:
the distance then stays at zero rather than strictly decreasing, see the
counterexample.) -/
theorem morph_geometric_convergence (qsin qcos : ℚ → ℚ) (times : ℕ → ℚ) (rand : ℚ)
    (hs : ∀ x, qsin x = 0) (hc : ∀ x, qcos x = 0)
    (target live : ParticleChannels) :
    (∀ n, liveDist (animateIterate qsin qcos times rand target live (n + 1)) target =
      (92/100) * liveDist (animateIterate qsin qcos times rand target live n) target) ∧
    (∀ n, liveDist (animateIterate qsin qcos times rand target live n) target ≠ 0 →
      liveDist (animateIterate qsin qcos times rand target live (n + 1)) target <
        liveDist (animateIterate qsin qcos times rand target live n) target) ∧
    (∀ ε : ℚ, 0 < ε → ∃ N, ∀ n, N ≤ n →
      liveDist (animateIterate qsin qcos times rand target live n) target < ε) := by
  have hstep : ∀ n,
      liveDist (animateIterate qsin qcos times rand target live (n + 1)) target =
        (92/100) * liveDist (animateIterate qsin qcos times rand target live n) target :=
    fun n => animateParticle_dist_ratio qsin qcos hs hc (times n) rand target _
  refine ⟨hstep, ?_, ?_⟩
  · intro n hne
    have hpos : 0 < liveDist (animateIterate qsin qcos times rand target live n) target :=
      lt_of_le_of_ne (liveDist_nonneg _ _) (Ne.symm hne)
    rw [hstep n]
    linarith
  · intro ε hε
    by_cases hd : liveDist live target = 0
    · refine ⟨0, fun n _ => ?_⟩
      rw [animateIterate_dist qsin qcos times rand hs hc, hd, mul_zero]
      exact hε
    · have hdpos : 0 < liveDist live target :=
        lt_of_le_of_ne (liveDist_nonneg _ _) (Ne.symm hd)
      obtain ⟨N, hN⟩ := exists_pow_lt_of_lt_one (div_pos hε hdpos)
        (show (92/100 : ℚ) < 1 by norm_num)
      refine ⟨N, fun n hn => ?_⟩
      rw [animateIterate_dist qsin qcos times rand hs hc]
      calc (92/100 : ℚ) ^ n * liveDist live target
          ≤ (92/100) ^ N * liveDist live target := by
            have := pow_le_pow_of_le_one (show (0:ℚ) ≤ 92/100 by norm_num)
              (show (92/100:ℚ) ≤ 1 by norm_num) hn
            exact mul_le_mul_of_nonneg_right this (le_of_lt hdpos)
        _ < (ε / liveDist live target) * liveDist live target :=
            mul_lt_mul_of_pos_right hN hdpos
        _ = ε := div_mul_cancel₀ ε (ne_of_gt hdpos)

/-- Witness for C3: from live (1,0,0,0,0,0) toward the all-zero target
with zero offsets, frame 1 has distance 0.92 times frame 0's distance,
which is a strict decrease, and the distance eventually stays below any
positive threshold such as 1/1000. -/
theorem morph_geometric_convergence_witness :
    liveDist (animateIterate (fun _ => 0) (fun _ => 0) (fun _ => 0) 0
        ⟨0, 0, 0, 0, 0, 0⟩ ⟨1, 0, 0, 0, 0, 0⟩ 1) ⟨0, 0, 0, 0, 0, 0⟩ =
      (92/100) * liveDist (animateIterate (fun _ => 0) (fun _ => 0) (fun _ => 0) 0
        ⟨0, 0, 0, 0, 0, 0⟩ ⟨1, 0, 0, 0, 0, 0⟩ 0) ⟨0, 0, 0, 0, 0, 0⟩ ∧
    liveDist (animateIterate (fun _ => 0) (fun _ => 0) (fun _ => 0) 0
        ⟨0, 0, 0, 0, 0, 0⟩ ⟨1, 0, 0, 0, 0, 0⟩ 1) ⟨0, 0, 0, 0, 0, 0⟩ <
      liveDist (animateIterate (fun _ => 0) (fun _ => 0) (fun _ => 0) 0
        ⟨0, 0, 0, 0, 0, 0⟩ ⟨1, 0, 0, 0, 0, 0⟩ 0) ⟨0, 0, 0, 0, 0, 0⟩ ∧
    ∃ N, ∀ n, N ≤ n →
      liveDist (animateIterate (fun _ => 0) (fun _ => 0) (fun _ => 0) 0
        ⟨0, 0, 0, 0, 0, 0⟩ ⟨1, 0, 0, 0, 0, 0⟩ n) ⟨0, 0, 0, 0, 0, 0⟩ < 1/1000 :=
  ⟨(morph_geometric_convergence (fun _ => 0) (fun _ => 0) (fun _ => 0) 0
      (fun _ => rfl) (fun _ => rfl) ⟨0, 0, 0, 0, 0, 0⟩ ⟨1, 0, 0, 0, 0, 0⟩).1 0,
   (morph_geometric_convergence (fun _ => 0) (fun _ => 0) (fun _ => 0) 0
      (fun _ => rfl) (fun _ => rfl) ⟨0, 0, 0, 0, 0, 0⟩ ⟨1, 0, 0, 0, 0, 0⟩).2.1 0
      (by norm_num [animateIterate, liveDist]),
   (morph_geometric_convergence (fun _ => 0) (fun _ => 0) (fun _ => 0) 0
      (fun _ => rfl) (fun _ => rfl) ⟨0, 0, 0, 0, 0, 0⟩ ⟨1, 0, 0, 0, 0, 0⟩).2.2
      (1/1000) (by norm_num)⟩

/-- Counterexample for C3: when the live channels already equal the
target, one frame leaves the distance at zero — the distance does not
strictly decrease on every frame from an arbitrary start. -/
theorem morph_strict_decrease_cex :
    ¬ (liveDist (animateIterate (fun _ => 0) (fun _ => 0) (fun _ => 0) 0
        ⟨0, 0, 0, 0, 0, 0⟩ ⟨0, 0, 0, 0, 0, 0⟩ 1) ⟨0, 0, 0, 0, 0, 0⟩ <
      liveDist (animateIterate (fun _ => 0) (fun _ => 0) (fun _ => 0) 0
        ⟨0, 0, 0, 0, 0, 0⟩ ⟨0, 0, 0, 0, 0, 0⟩ 0) ⟨0, 0, 0, 0, 0, 0⟩) := by
  norm_num [animateIterate, animateParticle, liveDist, lerpFactor]

/-! ### C4 -/

lemma ornamentColor_eq_red_iff (r1 r2 : ℝ) :
    ornamentColor ℝ r1 r2 = redColor ℝ ↔ (95:ℝ)/100 < r1 := by
  unfold ornamentColor
  constructor
  · intro hc
    by_contra h
    rw [if_neg h] at hc
    split at hc <;>
      simp only [goldColor, greenColor, redColor, Prod.mk.injEq] at hc <;> norm_num at hc
  · intro h
    rw [if_pos h]

lemma ornamentColor_eq_gold_iff (r1 r2 : ℝ) :
    ornamentColor ℝ r1 r2 = goldColor ℝ ↔ ¬((95:ℝ)/100 < r1) ∧ (95:ℝ)/100 < r2 := by
  unfold ornamentColor
  by_cases h1 : (95:ℝ)/100 < r1
  · rw [if_pos h1]
    simp only [h1, not_true, false_and, iff_false]
    intro hc
    simp only [redColor, goldColor, Prod.mk.injEq] at hc
    norm_num at hc
  · rw [if_neg h1]
    by_cases h2 : (95:ℝ)/100 < r2
    · rw [if_pos h2]
      simp [h1, h2]
    · rw [if_neg h2]
      simp only [h1, not_false_iff, true_and, h2, iff_false]
      intro hc
      simp only [greenColor, goldColor, Prod.mk.injEq] at hc
      norm_num at hc

lemma ornamentEvent_red_eq :
    ornamentEvent (redColor ℝ) = Set.Ioo (95/100 : ℝ) 1 ×ˢ Set.Ico (0:ℝ) 1 := by
  ext p
  simp only [ornamentEvent, accentUnitSquare, Set.mem_setOf_eq, Set.mem_prod,
    Set.mem_Ico, Set.mem_Ioo, ornamentColor_eq_red_iff]
  constructor
  · rintro ⟨⟨⟨_, h11⟩, h2⟩, hr⟩
    exact ⟨⟨hr, h11⟩, h2⟩
  · rintro ⟨⟨hr, h11⟩, h2⟩
    exact ⟨⟨⟨by linarith, h11⟩, h2⟩, hr⟩

lemma ornamentEvent_gold_eq :
    ornamentEvent (goldColor ℝ) = Set.Icc (0:ℝ) (95/100) ×ˢ Set.Ioo (95/100 : ℝ) 1 := by
  ext p
  simp only [ornamentEvent, accentUnitSquare, Set.mem_setOf_eq, Set.mem_prod,
    Set.mem_Ico, Set.mem_Icc, Set.mem_Ioo, ornamentColor_eq_gold_iff, not_lt]
  constructor
  · rintro ⟨⟨⟨h10, _⟩, ⟨_, h21⟩⟩, hr1, hr2⟩
    exact ⟨⟨h10, hr1⟩, hr2, h21⟩
  · rintro ⟨⟨h10, hr1⟩, hr2, h21⟩
    exact ⟨⟨⟨h10, by linarith⟩, ⟨by linarith, h21⟩⟩, hr1, hr2⟩

lemma volume_ornamentEvent_red :
    volume (ornamentEvent (redColor ℝ)) = ENNReal.ofReal (1/20) := by
  rw [ornamentEvent_red_eq, Measure.volume_eq_prod, Measure.prod_prod,
    Real.volume_Ioo, Real.volume_Ico, ← ENNReal.ofReal_mul (by norm_num)]
  norm_num

lemma volume_ornamentEvent_gold :
    volume (ornamentEvent (goldColor ℝ)) = ENNReal.ofReal (19/400) := by
  rw [ornamentEvent_gold_eq, Measure.volume_eq_prod, Measure.prod_prod,
    Real.volume_Icc, Real.volume_Ioo, ← ENNReal.ofReal_mul (by norm_num)]
  norm_num

/-- C4 (amended): modelling the random source as i.i.d. uniform draws on
[0,1), a tree particle keeps the green base color unless recolored to one
of the two disjoint bright accents, but the accent probabilities are not
equal: red (first draw > 0.95) has probability 1/20 = 5%, while gold
(first draw ≤ 0.95 and a second draw > 0.95) has probability
19/400 = 4.75%, because the gold test only runs when the red test fails —
the recoloring consumes up to two draws, not one. -/
theorem ornament_accent_probabilities :
    volume (ornamentEvent (redColor ℝ)) = ENNReal.ofReal (1/20) ∧
    volume (ornamentEvent (goldColor ℝ)) = ENNReal.ofReal (19/400) ∧
    volume accentUnitSquare = 1 := by
  refine ⟨volume_ornamentEvent_red, volume_ornamentEvent_gold, ?_⟩
  rw [accentUnitSquare, Measure.volume_eq_prod, Measure.prod_prod, Real.volume_Ico]
  norm_num

/-- Counterexample for C4: the gold accent does not occur with the
claimed probability 5% — its probability is 19/400, not 1/20. -/
theorem ornament_equal_prob_cex :
    volume (ornamentEvent (goldColor ℝ)) ≠ ENNReal.ofReal (1/20) := by
  rw [volume_ornamentEvent_gold, Ne,
    ENNReal.ofReal_eq_ofReal_iff (by norm_num) (by norm_num)]
  norm_num

end NewYear
